import Mathlib

/-! Shallow embedding of the RAG pipeline of this repository
(`src/ingest.py`, `src/search.py`, `src/chat.py`) and proofs about its
documented behaviour.  Pure Python expressions become Lean functions; the
external collaborators (PDF loader, text splitter, embedding provider,
vector store, chat model) are passed in explicitly as data or oracles, and
the side effect of interest (the vector-store write) is returned as an
explicit log. -/

namespace PdfRag

/-! ## Data model -/

/-- Scalar value that may appear in a chunk metadata mapping (a Python dict
value: a string, a number, or `None`). -/
inductive PyValue where
  | vStr (s : String)
  | vInt (n : Int)
  | vNone
deriving DecidableEq

/-- Document of `langchain_core.documents`: page text plus a metadata
mapping, here an ordered association list (Python dicts preserve insertion
order). -/
structure Document where
  page_content : String
  metadata : List (String × PyValue)
deriving DecidableEq

/-! ## Environment validation (ingest.py lines 27-36, search.py lines 26-35) -/

/-- Tuple `REQUIRED_ENV_VARS` of ingest.py lines 27-32; search.py lines 26-31
lists exactly the same four names. -/
def REQUIRED_ENV_VARS : List String :=
  ["OPENAI_API_KEY", "OPENAI_EMBEDDING_MODEL", "DATABASE_URL",
   "PG_VECTOR_COLLECTION_NAME"]

/-- Process environment: each variable name maps to its value, or to `none`
when unset. -/
def Env : Type := String → Option String

/-- Python truthiness of `os.getenv(env_var)` in `if not os.getenv(env_var)`
(ingest.py line 35): unset (`None`) and the empty string are both falsy. -/
def envPresent (e : Env) (v : String) : Bool :=
  match e v with
  | none => false
  | some s => s != ""

/-- Message of the `RuntimeError` raised at ingest.py line 36 /
search.py line 35. -/
def envErrorMsg (v : String) : String :=
  "Environment variable " ++ v ++ " is not set"

/-- Module-level validation loop (ingest.py lines 34-36, search.py
lines 33-35): raises `RuntimeError` at the first required variable whose
value is unset or empty. -/
def validateEnvVars (e : Env) : List String → Except String Unit
  | [] => .ok ()
  | v :: vs =>
    if envPresent e v then validateEnvVars e vs else .error (envErrorMsg v)

/-- Validation of the full `REQUIRED_ENV_VARS` tuple, as run when either
module is loaded. -/
def validateEnv (e : Env) : Except String Unit :=
  validateEnvVars e REQUIRED_ENV_VARS

/-! ## Metadata enrichment (ingest.py lines 84-94) -/

/-- Filter `value not in ("", None)` of ingest.py line 90. -/
def keepMetaValue (v : PyValue) : Bool :=
  !(v == PyValue.vStr "" || v == PyValue.vNone)

/-- Per-chunk enrichment of ingest.py lines 85-92: a new `Document` with the
same `page_content` and only the metadata items whose value is neither the
empty string nor `None`.  The original chunk is not touched (the embedding
is a pure function, exactly as the dict comprehension builds a fresh dict). -/
def cleanDocument (chunk : Document) : Document :=
  { page_content := chunk.page_content
    metadata := chunk.metadata.filter (fun kv => keepMetaValue kv.2) }

/-- List comprehension of ingest.py lines 84-94, applied to every chunk. -/
def enrichChunks (chunks : List Document) : List Document :=
  chunks.map cleanDocument

/-! ## Chunk identifiers (ingest.py line 97) -/

/-- `[f"doc-enriched-{i}" for i in range(len(enriched_chunks))]`
(ingest.py line 97), as a function of the number of enriched chunks. -/
def chunkIds (n : Nat) : List String :=
  (List.range n).map (fun i => "doc-enriched-" ++ toString i)

/-! ## Ingestion control flow (ingest.py lines 42-116) -/

/-- Signal raised by `raise SystemExit(0)` at ingest.py line 80. -/
inductive IngestSignal where
  | systemExit (code : Nat)
deriving DecidableEq

/-- One batched `vector_store.add_documents(documents=..., ids=...)` call
(ingest.py line 114). -/
structure WriteOp where
  documents : List Document
  ids : List String
deriving DecidableEq

/-- Body of `ingest_pdf` (ingest.py lines 42-116) from the point where the
external loader and splitter have produced `chunks`: with zero chunks it
raises `SystemExit(0)` (line 80) before any store write; otherwise it
enriches the chunks (lines 84-94), assigns sequential identifiers (line 97)
and performs the single batched store write (line 114), returning `True`
(line 116).  The result pairs the outcome with the log of vector-store
write calls performed. -/
def ingest_pdf (chunks : List Document) :
    Except IngestSignal Bool × List WriteOp :=
  if chunks.isEmpty then
    (.error (.systemExit 0), [])
  else
    let enriched_chunks := enrichChunks chunks
    let chunk_ids := chunkIds enriched_chunks.length
    (.ok true, [⟨enriched_chunks, chunk_ids⟩])

/-- Loading the ingest module and then running the pipeline: the validation
loop (lines 34-36) executes at import time, before `ingest_pdf` can run, so
a validation failure aborts with the `RuntimeError` message before any
embedding, store or model call is attempted (the write log stays empty). -/
def runIngestModule (e : Env) (chunks : List Document) :
    Except String (Except IngestSignal Bool) × List WriteOp :=
  match validateEnv e with
  | .error m => (.error m, [])
  | .ok _ => (.ok (ingest_pdf chunks).1, (ingest_pdf chunks).2)

/-! ## Prompt template (search.py lines 42-67) -/

/-- Verbatim content of the Python triple-quoted literal `PROMPT_TEMPLATE`
(search.py lines 42-67).  The literal opens right after `"""` followed by a
line break, so its first character is a newline, and it ends with the
newline that precedes the closing `"""`. -/
def PROMPT_TEMPLATE : String :=
  "\nCONTEXT:\n{context}\n\nRULES:\n- Answer only based on the CONTEXT.\n- If the information is not explicitly in the CONTEXT, respond:\n  \"I don\x27t have the necessary information to answer your question.\"\n- Never invent or use external knowledge.\n- Never produce opinions or interpretations beyond what is written.\n\nEXAMPLES OF QUESTIONS OUTSIDE THE CONTEXT:\nQuestion: \"What is the capital of France?\"\nAnswer: \"I don\x27t have the necessary information to answer your question.\"\n\nQuestion: \"How many clients do we have in 2024?\"\nAnswer: \"I don\x27t have the necessary information to answer your question.\"\n\nQuestion: \"Do you think this is good or bad?\"\nAnswer: \"I don\x27t have the necessary information to answer your question.\"\n\nUSER QUESTION:\n{question}\n\nANSWER THE \"USER QUESTION\"\n"

/-- Modelled from the spec: the prompt template as printed in the fenced
block of spec.md section 6 ("Prompt template (must be reproduced verbatim
for compatible behavior)"), i.e. the block lines each followed by their
line break.  Declared only to compare the code template against the spec
template. -/
def specPromptTemplate : String :=
  "CONTEXT:\n{context}\n\nRULES:\n- Answer only based on the CONTEXT.\n- If the information is not explicitly in the CONTEXT, respond:\n  \"I don\x27t have the necessary information to answer your question.\"\n- Never invent or use external knowledge.\n- Never produce opinions or interpretations beyond what is written.\n\nEXAMPLES OF QUESTIONS OUTSIDE THE CONTEXT:\nQuestion: \"What is the capital of France?\"\nAnswer: \"I don\x27t have the necessary information to answer your question.\"\n\nQuestion: \"How many clients do we have in 2024?\"\nAnswer: \"I don\x27t have the necessary information to answer your question.\"\n\nQuestion: \"Do you think this is good or bad?\"\nAnswer: \"I don\x27t have the necessary information to answer your question.\"\n\nUSER QUESTION:\n{question}\n\nANSWER THE \"USER QUESTION\"\n"

/-- Text of `PROMPT_TEMPLATE` before the `{context}` slot. -/
def promptPre : String := "\nCONTEXT:\n"

/-- Text of `PROMPT_TEMPLATE` between the `{context}` and `{question}`
slots. -/
def promptMid : String :=
  "\n\nRULES:\n- Answer only based on the CONTEXT.\n- If the information is not explicitly in the CONTEXT, respond:\n  \"I don\x27t have the necessary information to answer your question.\"\n- Never invent or use external knowledge.\n- Never produce opinions or interpretations beyond what is written.\n\nEXAMPLES OF QUESTIONS OUTSIDE THE CONTEXT:\nQuestion: \"What is the capital of France?\"\nAnswer: \"I don\x27t have the necessary information to answer your question.\"\n\nQuestion: \"How many clients do we have in 2024?\"\nAnswer: \"I don\x27t have the necessary information to answer your question.\"\n\nQuestion: \"Do you think this is good or bad?\"\nAnswer: \"I don\x27t have the necessary information to answer your question.\"\n\nUSER QUESTION:\n"

/-- Text of `PROMPT_TEMPLATE` after the `{question}` slot. -/
def promptPost : String := "\n\nANSWER THE \"USER QUESTION\"\n"

/-- Fixed refusal sentence the template instructs the model to use. -/
def refusalSentence : String :=
  "I don\x27t have the necessary information to answer your question."

/-- Rendering of the `PromptTemplate` (search.py lines 118-121) at
invocation (lines 130-136): Python `str.format` substitutes the two slots
of the template in one pass, yielding the text around the slots with the
context and the question spliced in. -/
def renderPrompt (context question : String) : String :=
  promptPre ++ context ++ promptMid ++ question ++ promptPost

/-! ## Retrieval and answer generation (search.py lines 69-150) -/

/-- Similarity score attached to a retrieved chunk. -/
abbrev Score := ℚ

/-- Modelled from the spec: `similarity_search_with_score` of the langchain
PGVector store (a third-party dependency whose code is not in this
repository; search.py line 111 only calls it).  Spec section 4.3: query the
store for the k nearest records by similarity, "results are returned sorted
by descending similarity (closest first)", and an empty store yields an
empty sequence.  The store is modelled as the list of its records, each
paired with its similarity score for the current query. -/
def similarity_search_with_score (store : List (Document × Score)) (k : Nat) :
    List (Document × Score) :=
  (store.mergeSort (fun a b => b.2 ≤ a.2)).take k

/-- Context assembly of search.py line 114:
`"\n\n".join([doc.page_content for doc, _ in similarity_results])`. -/
def assembleContext (similarity_results : List (Document × Score)) : String :=
  String.intercalate "\n\n" (similarity_results.map (fun r => r.1.page_content))

/-- Response object returned by the chat model (the langchain message whose
`.content` field chat.py line 68 prints). -/
structure ChatResponse where
  content : String
deriving DecidableEq

/-- Body of `search_prompt` (search.py lines 69-150) with the external
collaborators made explicit: `llm` is the chat-model oracle (prompt text in,
response out) and `store` the vector store as seen by the current query.
The function retrieves the k=10 nearest records (line 111), joins their
texts (line 114), renders the template (lines 118-136) and returns the
model response unchanged (line 150). -/
def search_prompt (llm : String → ChatResponse)
    (store : List (Document × Score)) (user_question : String) : ChatResponse :=
  let similarity_results := similarity_search_with_score store 10
  let context := assembleContext similarity_results
  llm (renderPrompt context user_question)

/-! ## Chunking (spec-modelled; configured at ingest.py lines 72-76) -/

/-- Parameter `chunk_size=1000` of ingest.py line 73. -/
def chunkSize : Nat := 1000

/-- Parameter `chunk_overlap=150` of ingest.py line 74. -/
def chunkOverlap : Nat := 150

/-- Modelled from the spec: the splitting step of
`RecursiveCharacterTextSplitter.split_documents` (a third-party langchain
dependency whose code is not in this repository; ingest.py lines 72-76 only
configure it with `chunk_size=1000, chunk_overlap=150`).  Spec section 4.1:
"produce an ordered sequence of overlapping chunks such that each chunk's
text length does not exceed a fixed maximum (1000 units) and each chunk
shares a fixed-size overlap (150 units) with its immediate predecessor,
except possibly the first."  A text is a list of units; chunks are windows
of `chunkSize` units whose start advances by `chunkSize - chunkOverlap`
units, the last window ending at the end of the text. -/
def splitFrom (text : List Char) (start : Nat) : List (List Char) :=
  if text.length ≤ start + chunkSize then
    [(text.drop start).take chunkSize]
  else
    (text.drop start).take chunkSize ::
      splitFrom text (start + (chunkSize - chunkOverlap))
termination_by text.length - start
decreasing_by simp [chunkSize, chunkOverlap]; omega

/-- Modelled from the spec: `split_documents` on a whole text, producing no
chunk on empty input (spec section 4.1 edge case) and the overlapping
windows otherwise. -/
def split_documents (text : List Char) : List (List Char) :=
  if text.isEmpty then [] else splitFrom text 0

/-! ## Concrete sample data used by witnesses -/

/-- Sample chunk with metadata exercising all three value shapes. -/
def sampleDoc : Document :=
  { page_content := "The sky is blue."
    metadata := [("source", .vStr "doc.pdf"), ("producer", .vStr ""),
                 ("page", .vInt 0), ("title", .vNone)] }

/-- Environment with the four validated variables set and the
source-document path `PDF_PATH` unset. -/
def envNoPdfPath : Env :=
  fun v => if v ∈ REQUIRED_ENV_VARS then some "set" else none

/-- Environment with nothing set. -/
def emptyEnv : Env := fun _ => none

/-! ## Theorems -/

/-- C2: with zero chunks from the splitting step, `ingest_pdf` performs no
vector-store write (the write log is empty) and terminates with the
`SystemExit(0)` signal, an `error` outcome that is not a success
(`isOk = false`), so callers cannot mistake it for a successful
ingestion. -/
theorem ingest_pdf_zero_chunks_no_write :
    ingest_pdf [] = (.error (.systemExit 0), []) ∧
    (ingest_pdf []).1.isOk = false :=
  ⟨rfl, rfl⟩

/-- Helper for C3: if some variable of the list fails Python truthiness,
the validation loop stops at the first such variable with its
`RuntimeError` message. -/
theorem validateEnvVars_error (e : Env) (vars : List String) (v : String)
    (hv : v ∈ vars) (habs : envPresent e v = false) :
    ∃ v', v' ∈ vars ∧ envPresent e v' = false ∧
      validateEnvVars e vars = .error (envErrorMsg v') := by
  induction vars with
  | nil => cases hv
  | cons w vs ih =>
    by_cases hw : envPresent e w = true
    · have hvvs : v ∈ vs := by
        rcases List.mem_cons.1 hv with rfl | h
        · simp [habs] at hw
        · exact h
      obtain ⟨v', h1, h2, h3⟩ := ih hvvs
      exact ⟨v', List.mem_cons_of_mem _ h1, h2, by simp [validateEnvVars, hw, h3]⟩
    · exact ⟨w, List.mem_cons_self _ _, by simpa using hw,
        by simp [validateEnvVars, hw]⟩

/-- C3 (counterexample): the source-document path `PDF_PATH` is not among
the variables validated at startup (ingest.py lines 27-32 list only four
names).  With the four validated variables set and `PDF_PATH` absent,
module load succeeds and the pipeline proceeds all the way to a
vector-store write, instead of aborting before any call. -/
theorem startup_not_aborted_without_pdf_path :
    envNoPdfPath "PDF_PATH" = none ∧
    validateEnv envNoPdfPath = .ok () ∧
    runIngestModule envNoPdfPath [sampleDoc] =
      (.ok (.ok true), [⟨enrichChunks [sampleDoc], chunkIds 1⟩]) :=
  ⟨by decide, rfl, rfl⟩

/-- C3 (amended): for each of the four variables actually listed in
`REQUIRED_ENV_VARS` (embedding-provider API key, embedding model
identifier, vector-store connection string, vector-store collection name
-- but not the source-document path), absence or emptiness aborts module
load with the descriptive `RuntimeError` of some absent required variable,
before any embedding, store or model call (the write log stays empty). -/
theorem missing_required_env_aborts (e : Env) (v : String)
    (hv : v ∈ REQUIRED_ENV_VARS) (habs : envPresent e v = false)
    (chunks : List Document) :
    ∃ v', v' ∈ REQUIRED_ENV_VARS ∧ envPresent e v' = false ∧
      validateEnv e = .error (envErrorMsg v') ∧
      runIngestModule e chunks = (.error (envErrorMsg v'), []) := by
  obtain ⟨v', h1, h2, h3⟩ := validateEnvVars_error e REQUIRED_ENV_VARS v hv habs
  have h4 : validateEnv e = .error (envErrorMsg v') := h3
  exact ⟨v', h1, h2, h4, by simp [runIngestModule, h4]⟩

/-- Witness for C3 (amended) at the empty environment and the API key. -/
theorem missing_required_env_aborts_witness :
    ("OPENAI_API_KEY" ∈ REQUIRED_ENV_VARS ∧
      envPresent emptyEnv "OPENAI_API_KEY" = false) ∧
    (∃ v', v' ∈ REQUIRED_ENV_VARS ∧ envPresent emptyEnv v' = false ∧
      validateEnv emptyEnv = .error (envErrorMsg v') ∧
      runIngestModule emptyEnv [] = (.error (envErrorMsg v'), [])) :=
  ⟨⟨by decide, by decide⟩,
    missing_required_env_aborts emptyEnv "OPENAI_API_KEY" (by decide) (by decide) []⟩

/-- C4: the metadata-cleaning transform of ingest.py lines 84-94 is total
on chunks with empty metadata (and leaves them unchanged), idempotent,
keeps the page text intact, and leaves no metadata entry whose value is the
empty string or `None`.  It is pure by construction: the embedding is a
function building a fresh `Document`, exactly as the source builds a new
`Document` from a fresh dict comprehension without touching `chunk`. -/
theorem cleanDocument_contract :
    (∀ t : String, cleanDocument ⟨t, []⟩ = ⟨t, []⟩) ∧
    (∀ d : Document, cleanDocument (cleanDocument d) = cleanDocument d) ∧
    (∀ d : Document, (cleanDocument d).page_content = d.page_content) ∧
    (∀ d : Document, ∀ kv ∈ (cleanDocument d).metadata,
      kv.2 ≠ PyValue.vStr "" ∧ kv.2 ≠ PyValue.vNone) := by
  refine ⟨fun t => rfl, fun d => ?_, fun d => rfl, fun d kv hkv => ?_⟩
  · simp [cleanDocument, List.filter_filter]
  · have h := (List.mem_filter.1 hkv).2
    simp only [keepMetaValue, Bool.not_eq_true', Bool.or_eq_false_iff,
      beq_eq_false_iff_ne] at h
    exact h

/-- Witness for C4 at `sampleDoc` and its kept metadata entry. -/
theorem cleanDocument_contract_witness :
    (("source", PyValue.vStr "doc.pdf") ∈ (cleanDocument sampleDoc).metadata) ∧
    (("source", PyValue.vStr "doc.pdf").2 ≠ PyValue.vStr "" ∧
      ("source", PyValue.vStr "doc.pdf").2 ≠ PyValue.vNone) :=
  ⟨by decide, cleanDocument_contract.2.2.2 sampleDoc
    ("source", PyValue.vStr "doc.pdf") (by decide)⟩

/-- C6: context assembly (search.py line 114) is a pure function of the
retrieval result sequence; it joins the chunk texts in result order,
discards the scores, puts exactly one blank line between consecutive
chunks, and performs no truncation, deduplication or reranking; on the
two-element sequence it yields exactly the first text, a blank line, and
the second text. -/
theorem assembleContext_contract :
    (∀ A B : Document, ∀ sa sb : Score,
      assembleContext [(A, sa), (B, sb)] =
        A.page_content ++ "\n\n" ++ B.page_content) ∧
    (∀ rs : List (Document × Score),
      assembleContext rs =
        String.intercalate "\n\n" (rs.map (fun r => r.1.page_content))) := by
  refine ⟨fun A B sa sb => ?_, fun rs => rfl⟩
  simp [assembleContext, String.intercalate, String.intercalate.go]

/-- C7: retrieval queries the store for the k=10 nearest records
(search.py line 111); against a store of fewer than 10 records it returns
exactly that many (length is `min 10 m`, no padding), in descending
similarity order, and against an empty store it returns the empty sequence
rather than an error. -/
theorem similarity_search_contract :
    (∀ store : List (Document × Score),
      (similarity_search_with_score store 10).length = min 10 store.length) ∧
    (∀ store : List (Document × Score), store.length < 10 →
      (similarity_search_with_score store 10).length = store.length) ∧
    (∀ store : List (Document × Score),
      List.Pairwise (fun a b : Document × Score => b.2 ≤ a.2)
        (similarity_search_with_score store 10)) ∧
    similarity_search_with_score ([] : List (Document × Score)) 10 = [] := by
  have hlen : ∀ store : List (Document × Score),
      (similarity_search_with_score store 10).length = min 10 store.length := by
    intro store
    simp [similarity_search_with_score]
  refine ⟨hlen, fun store hst => ?_, fun store => ?_,
    by simp [similarity_search_with_score]⟩
  · have := hlen store
    omega
  · have h := @List.sorted_mergeSort (Document × Score)
      (fun a b => decide (b.2 ≤ a.2))
      (fun a b c h1 h2 => by
        simp only [decide_eq_true_eq] at h1 h2 ⊢
        exact le_trans h2 h1)
      (fun a b => by
        simp only [Bool.or_eq_true, decide_eq_true_eq]
        exact le_total b.2 a.2)
      store
    have h2 : List.Pairwise (fun a b : Document × Score => b.2 ≤ a.2)
        (store.mergeSort (fun a b => b.2 ≤ a.2)) :=
      h.imp (fun hab => by simpa using hab)
    exact h2.take

/-- Witness for C7 at a one-record store. -/
theorem similarity_search_contract_witness :
    ([(sampleDoc, (1 : Score))].length < 10) ∧
    (similarity_search_with_score [(sampleDoc, (1 : Score))] 10).length =
      [(sampleDoc, (1 : Score))].length :=
  ⟨by decide, similarity_search_contract.2.1 [(sampleDoc, (1 : Score))] (by decide)⟩

/-- C9: for every query that completes, `search_prompt` returns the chat
model response unchanged -- the value returned at search.py line 150 is
exactly the model output on the rendered prompt, with no post-processing
and no citation extraction applied. -/
theorem search_prompt_returns_raw_output (llm : String → ChatResponse)
    (store : List (Document × Score)) (q : String) :
    search_prompt llm store q =
      llm (renderPrompt
        (assembleContext (similarity_search_with_score store 10)) q) :=
  rfl

/-- C10: metadata enrichment leaves everything except metadata unchanged:
the enriched sequence has the same length, each enriched chunk keeps the
page text of the input chunk at the same index, and only the metadata
mapping is filtered. -/
theorem enrichChunks_frame (chunks : List Document) :
    (enrichChunks chunks).length = chunks.length ∧
    (∀ i : Nat, (enrichChunks chunks)[i]?.map Document.page_content =
      chunks[i]?.map Document.page_content) ∧
    (∀ i : Nat, (enrichChunks chunks)[i]?.map Document.metadata =
      chunks[i]?.map
        (fun d => d.metadata.filter (fun kv => keepMetaValue kv.2))) := by
  refine ⟨by simp [enrichChunks], fun i => ?_, fun i => ?_⟩ <;>
    cases h : chunks[i]? <;>
      simp [enrichChunks, List.getElem?_map, h, cleanDocument]

/-- C8 (counterexample): the template string submitted to the model is not
the spec section 6 block verbatim -- the Python triple-quoted literal opens
with a line break, so `PROMPT_TEMPLATE` carries one extra leading newline
before the first block line `CONTEXT:`. -/
theorem PROMPT_TEMPLATE_not_verbatim_spec_block :
    (PROMPT_TEMPLATE == specPromptTemplate) = false ∧
    PROMPT_TEMPLATE = "\n" ++ specPromptTemplate :=
  ⟨by decide, rfl⟩

set_option maxRecDepth 40000 in
/-- C8 (amended): the template equals the spec section 6 block with a
single leading newline prepended; it has exactly two substitution slots
(the only two braces open the `{context}` and `{question}` slots, in this
order); the rendered prompt splices the context and the user question in
verbatim, and it contains the refusal instruction with the exact refusal
sentence. -/
theorem prompt_render_contract :
    PROMPT_TEMPLATE = "\n" ++ specPromptTemplate ∧
    PROMPT_TEMPLATE =
      promptPre ++ "{context}" ++ promptMid ++ "{question}" ++ promptPost ∧
    (PROMPT_TEMPLATE.data.count '\x7b' = 2 ∧
      PROMPT_TEMPLATE.data.count '\x7d' = 2) ∧
    (∀ c q : String,
      renderPrompt c q = (promptPre ++ c ++ promptMid) ++ q ++ promptPost) ∧
    (∀ c q : String, ∃ l r : String,
      renderPrompt c q = l ++ refusalSentence ++ r) := by
  refine ⟨rfl, by decide, ⟨by decide, by decide⟩, fun c q => rfl, fun c q => ?_⟩
  have hmid : promptMid =
      "\n\nRULES:\n- Answer only based on the CONTEXT.\n- If the information is not explicitly in the CONTEXT, respond:\n  \"" ++
        refusalSentence ++
      "\"\n- Never invent or use external knowledge.\n- Never produce opinions or interpretations beyond what is written.\n\nEXAMPLES OF QUESTIONS OUTSIDE THE CONTEXT:\nQuestion: \"What is the capital of France?\"\nAnswer: \"I don\x27t have the necessary information to answer your question.\"\n\nQuestion: \"How many clients do we have in 2024?\"\nAnswer: \"I don\x27t have the necessary information to answer your question.\"\n\nQuestion: \"Do you think this is good or bad?\"\nAnswer: \"I don\x27t have the necessary information to answer your question.\"\n\nUSER QUESTION:\n" := by
    decide
  refine ⟨promptPre ++ c ++
      "\n\nRULES:\n- Answer only based on the CONTEXT.\n- If the information is not explicitly in the CONTEXT, respond:\n  \"",
    "\"\n- Never invent or use external knowledge.\n- Never produce opinions or interpretations beyond what is written.\n\nEXAMPLES OF QUESTIONS OUTSIDE THE CONTEXT:\nQuestion: \"What is the capital of France?\"\nAnswer: \"I don\x27t have the necessary information to answer your question.\"\n\nQuestion: \"How many clients do we have in 2024?\"\nAnswer: \"I don\x27t have the necessary information to answer your question.\"\n\nQuestion: \"Do you think this is good or bad?\"\nAnswer: \"I don\x27t have the necessary information to answer your question.\"\n\nUSER QUESTION:\n" ++
      q ++ promptPost, ?_⟩
  rw [renderPrompt, hmid]
  simp only [String.append_assoc]

/-! ## Decimal representation facts, used for uniqueness of chunk ids -/

/-- Helper: the fueled digit printer of core produces the decimal digits
(most significant first) in front of the accumulator. -/
theorem toDigitsCore_digits (f n : Nat) (ds : List Char) (hf : n < 10 ^ f)
    (hn : 0 < n) :
    Nat.toDigitsCore 10 f n ds =
      ((Nat.digits 10 n).map Nat.digitChar).reverse ++ ds := by
  induction f generalizing n ds with
  | zero => simp at hf; omega
  | succ f ih =>
    by_cases h10 : n / 10 = 0
    · have hd : Nat.digits 10 n = [n % 10] := by
        rw [Nat.digits_def' (by norm_num : (1:ℕ) < 10) hn, h10]
        simp
      simp [Nat.toDigitsCore, h10, hd]
    · have hpos : 0 < n / 10 := Nat.pos_of_ne_zero h10
      have hlt : n / 10 < 10 ^ f := by
        rw [Nat.div_lt_iff_lt_mul (by norm_num : (0:ℕ) < 10)]
        calc n < 10 ^ (f + 1) := hf
          _ = 10 ^ f * 10 := by ring
      have hrec := ih (n / 10) (Nat.digitChar (n % 10) :: ds) hlt hpos
      rw [Nat.digits_def' (by norm_num : (1:ℕ) < 10) hn]
      simp [Nat.toDigitsCore, h10, hrec]

/-- Helper: characters of the decimal representation of a positive
number. -/
theorem repr_data_of_pos (n : Nat) (hn : 0 < n) :
    (Nat.repr n).data = ((Nat.digits 10 n).map Nat.digitChar).reverse := by
  have hb : n < 10 ^ (n + 1) :=
    calc n < 10 ^ n := Nat.lt_pow_self (by norm_num) n
      _ ≤ 10 ^ (n + 1) := Nat.pow_le_pow_right (by norm_num) (Nat.le_succ n)
  show (List.asString (Nat.toDigits 10 n)).data = _
  rw [Nat.toDigits, toDigitsCore_digits (n + 1) n [] hb hn]
  simp [List.asString]

/-- Helper: the digit-to-character map is injective on digits. -/
theorem digitChar_injOn (a b : Nat) (ha : a < 10) (hb : b < 10)
    (hab : Nat.digitChar a = Nat.digitChar b) : a = b := by
  have h : ∀ x y : Fin 10,
      Nat.digitChar x.val = Nat.digitChar y.val → x = y := by decide
  exact congrArg Fin.val (h ⟨a, ha⟩ ⟨b, hb⟩ hab)

/-- Helper: mapping digits to characters is injective on digit lists. -/
theorem map_digitChar_inj : ∀ l1 l2 : List Nat, (∀ d ∈ l1, d < 10) →
    (∀ d ∈ l2, d < 10) →
    l1.map Nat.digitChar = l2.map Nat.digitChar → l1 = l2 := by
  intro l1
  induction l1 with
  | nil =>
    intro l2 _ _ h
    cases l2 <;> simp_all
  | cons a t ih =>
    intro l2 h1 h2 h
    cases l2 with
    | nil => simp at h
    | cons b t2 =>
      simp only [List.map_cons, List.cons.injEq] at h
      have hab : a = b :=
        digitChar_injOn a b (h1 a (List.mem_cons_self _ _))
          (h2 b (List.mem_cons_self _ _)) h.1
      subst hab
      have ht : t = t2 :=
        ih t2 (fun d hd => h1 d (List.mem_cons_of_mem _ hd))
          (fun d hd => h2 d (List.mem_cons_of_mem _ hd)) h.2
      simp [ht]

/-- Helper: a positive number never prints as the numeral of zero. -/
theorem repr_pos_ne_repr_zero (n : Nat) (hn : 0 < n)
    (h : Nat.repr n = Nat.repr 0) : False := by
  have hd := congrArg String.data h
  rw [repr_data_of_pos n hn] at hd
  have h0 : (Nat.repr 0).data = ['0'] := by decide
  rw [h0] at hd
  have hmap : (Nat.digits 10 n).map Nat.digitChar = ['0'] := by
    have hr := congrArg List.reverse hd
    simpa using hr
  have hdig : Nat.digits 10 n = [0] := by
    apply map_digitChar_inj _ _
      (fun d hd2 => Nat.digits_lt_base (by norm_num) hd2) (by simp)
    simpa using hmap
  have hof := Nat.ofDigits_digits 10 n
  rw [hdig] at hof
  simp [Nat.ofDigits] at hof
  omega

/-- Helper: the decimal printer of core is injective. -/
theorem Nat_repr_injective : Function.Injective Nat.repr := by
  intro m n h
  rcases Nat.eq_zero_or_pos m with rfl | hm
  · rcases Nat.eq_zero_or_pos n with rfl | hn
    · rfl
    · exact (repr_pos_ne_repr_zero n hn h.symm).elim
  · rcases Nat.eq_zero_or_pos n with rfl | hn
    · exact (repr_pos_ne_repr_zero m hm h).elim
    · have hd := congrArg String.data h
      rw [repr_data_of_pos m hm, repr_data_of_pos n hn] at hd
      have hmap := congrArg List.reverse hd
      simp only [List.reverse_reverse] at hmap
      have hdig : Nat.digits 10 m = Nat.digits 10 n :=
        map_digitChar_inj _ _
          (fun d hdm => Nat.digits_lt_base (by norm_num) hdm)
          (fun d hdn => Nat.digits_lt_base (by norm_num) hdn) hmap
      have h1 := Nat.ofDigits_digits 10 m
      rw [hdig, Nat.ofDigits_digits 10 n] at h1
      exact h1.symm

/-- Helper: distinct indices receive distinct identifiers. -/
theorem chunkId_injective :
    Function.Injective (fun i : Nat => "doc-enriched-" ++ toString i) := by
  intro a b h
  have hd := congrArg String.data h
  simp only [String.data_append] at hd
  exact Nat_repr_injective (String.ext (List.append_cancel_left hd))

/-- C5: on a non-empty chunk list, the single store write of `ingest_pdf`
carries exactly the identifiers `doc-enriched-0 … doc-enriched-(N-1)` in
chunk order, where N is the number of enriched chunks: there are N of
them, the i-th identifier is `doc-enriched-i`, and they are pairwise
distinct; they are a deterministic function of the chunk count. -/
theorem chunk_ids_spec (chunks : List Document)
    (h : chunks.isEmpty = false) :
    (ingest_pdf chunks).2 =
      [⟨enrichChunks chunks, chunkIds (enrichChunks chunks).length⟩] ∧
    (chunkIds (enrichChunks chunks).length).length =
      (enrichChunks chunks).length ∧
    (∀ i : Nat, i < (enrichChunks chunks).length →
      (chunkIds (enrichChunks chunks).length)[i]? =
        some ("doc-enriched-" ++ toString i)) ∧
    (chunkIds (enrichChunks chunks).length).Nodup := by
  refine ⟨by simp [ingest_pdf, h], by simp [chunkIds], fun i hi => ?_, ?_⟩
  · simp [chunkIds, List.getElem?_map, List.getElem?_range hi]
  · exact (List.nodup_range _).map chunkId_injective

/-- Witness for C5 at a one-chunk ingestion. -/
theorem chunk_ids_spec_witness :
    ([sampleDoc].isEmpty = false) ∧
    ((ingest_pdf [sampleDoc]).2 =
      [⟨enrichChunks [sampleDoc], chunkIds (enrichChunks [sampleDoc]).length⟩] ∧
    (chunkIds (enrichChunks [sampleDoc]).length).length =
      (enrichChunks [sampleDoc]).length ∧
    (∀ i : Nat, i < (enrichChunks [sampleDoc]).length →
      (chunkIds (enrichChunks [sampleDoc]).length)[i]? =
        some ("doc-enriched-" ++ toString i)) ∧
    (chunkIds (enrichChunks [sampleDoc]).length).Nodup) :=
  ⟨rfl, chunk_ids_spec [sampleDoc] rfl⟩

/-! ## Chunking properties (C1) -/

/-- Helper: the first chunk produced from a given start position. -/
theorem splitFrom_head (text : List Char) (start : Nat) :
    (splitFrom text start).head? = some ((text.drop start).take chunkSize) := by
  rw [splitFrom]
  split <;> rfl

/-- Helper: at least one chunk is produced from any start position. -/
theorem splitFrom_length_pos (text : List Char) (start : Nat) :
    1 ≤ (splitFrom text start).length := by
  rw [splitFrom]
  split <;> simp

/-- Helper: every produced chunk has at most `chunkSize` units. -/
theorem splitFrom_mem_length (text : List Char) :
    ∀ start, ∀ c ∈ splitFrom text start, c.length ≤ chunkSize := by
  refine splitFrom.induct text _ ?_ ?_
  · intro x hx c hc
    rw [splitFrom, if_pos hx] at hc
    simp only [List.mem_singleton] at hc
    subst hc
    simp only [List.length_take]
    exact inf_le_left
  · intro x hx ih c hc
    rw [splitFrom, if_neg hx] at hc
    rcases List.mem_cons.1 hc with rfl | hmem
    · simp only [List.length_take]
      exact inf_le_left
    · exact ih c hmem

/-- Helper: each chunk after the first starts with exactly the last
`chunkOverlap` units of its predecessor. -/
theorem splitFrom_chain (text : List Char) :
    ∀ start, List.Chain' (fun c1 c2 =>
      c1.drop (c1.length - chunkOverlap) = c2.take chunkOverlap ∧
      (c2.take chunkOverlap).length = chunkOverlap) (splitFrom text start) := by
  refine splitFrom.induct text _ ?_ ?_
  · intro x hx
    rw [splitFrom, if_pos hx]
    simp
  · intro x hx ih
    rw [splitFrom, if_neg hx]
    refine List.chain'_cons'.2 ⟨?_, ih⟩
    intro y hy
    have hy2 : (text.drop (x + (chunkSize - chunkOverlap))).take chunkSize
        = y := by
      rw [splitFrom_head] at hy
      simpa using hy
    subst hy2
    have hlen : ((text.drop x).take chunkSize).length = chunkSize := by
      simp only [List.length_take, List.length_drop]
      exact Nat.min_eq_left (by omega)
    have hco : chunkSize - (chunkSize - chunkOverlap) = chunkOverlap := by
      decide
    have hoc : chunkOverlap ⊓ chunkSize = chunkOverlap := by decide
    constructor
    · rw [hlen, List.drop_take, List.drop_drop, List.take_take, hco, hoc]
    · simp only [List.length_take, List.length_drop]
      have h1 : chunkOverlap ≤ chunkSize := by decide
      have h2 : chunkOverlap ≤
          text.length - (x + (chunkSize - chunkOverlap)) := by omega
      exact Nat.min_eq_left (le_min h1 h2)

/-- C1: for every non-empty input text, the (spec-modelled) chunking step
produces at least one chunk, every chunk holds at most 1000 units, and
every chunk after the first starts with exactly the 150 units ending its
immediate predecessor (the shared segment has length exactly 150). -/
theorem chunking_contract (text : List Char) (h : text.isEmpty = false) :
    1 ≤ (split_documents text).length ∧
    (∀ c ∈ split_documents text, c.length ≤ chunkSize) ∧
    List.Chain' (fun c1 c2 =>
      c1.drop (c1.length - chunkOverlap) = c2.take chunkOverlap ∧
      (c2.take chunkOverlap).length = chunkOverlap)
      (split_documents text) := by
  rw [split_documents, if_neg (by simp [h])]
  exact ⟨splitFrom_length_pos text 0, splitFrom_mem_length text 0,
    splitFrom_chain text 0⟩

/-- Sample text for the C1 witness. -/
def sampleText : List Char := "The sky is blue.".data

/-- Witness for C1 at a short concrete text. -/
theorem chunking_contract_witness :
    (sampleText.isEmpty = false) ∧
    (1 ≤ (split_documents sampleText).length ∧
     (∀ c ∈ split_documents sampleText, c.length ≤ chunkSize) ∧
     List.Chain' (fun c1 c2 =>
       c1.drop (c1.length - chunkOverlap) = c2.take chunkOverlap ∧
       (c2.take chunkOverlap).length = chunkOverlap)
       (split_documents sampleText)) :=
  ⟨by decide, chunking_contract sampleText (by decide)⟩

end PdfRag
